import Mathlib

/-!
Shallow embedding of the consul-kv-api-deno server (src/main.ts).

The HTTP transport (Hono routing, JSON encoding) and the Deno KV storage
engine are out-of-scope collaborators; the storage engine is modelled as an
association list over string keys with insert-or-replace `set`, `delete`
and string-prefix `scan`, exactly the abstract ordered key-value backend
the design document assumes. Each route handler becomes a pure function
from its parsed inputs and the server state to a response paired with the
successor state. JavaScript string-truthiness (`if (sessionId)`,
`a || b`) is modelled explicitly on `Option String`.
-/

namespace ConsulKV

/-- Mirrors the `Session` record of src/main.ts. `behavior` is an arbitrary
string because the handler stores `body.Behavior.toLowerCase()` without
validation; `ttl` is the result of `parseInt(body.TTL)` (may be negative);
`lastRenewTime` (an ISO timestamp string in the source) is modelled as a
natural-number clock value. -/
structure Session where
  id : String
  name : String
  behavior : String
  ttl : Int
  createIndex : Nat
  lastRenewTime : Nat
deriving DecidableEq

/-- Mirrors the `KVPair` record of src/main.ts; `session` is the optional
lock-holding session id. -/
structure KVPair where
  createIndex : Nat
  flags : Nat
  key : String
  lockIndex : Nat
  modifyIndex : Nat
  value : String
  session : Option String
deriving DecidableEq

/-- The whole mutable server state: the module-level `consulIndex` counter
plus the two keyspaces (`['sessions', id]` and `['kv', key]`) of the store. -/
structure ServerState where
  consulIndex : Nat
  sessions : List (String × Session)
  kvs : List (String × KVPair)
deriving DecidableEq

/-- The two error responses the handlers can throw (`HTTPException`). -/
inductive HErr where
  | notFound (msg : String)
  | invalidArgument (msg : String)
deriving DecidableEq

instance {ε α : Type} [DecidableEq ε] [DecidableEq α] : DecidableEq (Except ε α) :=
  fun a b =>
    match a, b with
    | .error e₁, .error e₂ =>
        if h : e₁ = e₂ then .isTrue (by rw [h])
        else .isFalse (fun hh => h (Except.error.inj hh))
    | .ok a₁, .ok a₂ =>
        if h : a₁ = a₂ then .isTrue (by rw [h])
        else .isFalse (fun hh => h (Except.ok.inj hh))
    | .error _, .ok _ => .isFalse (fun hh => Except.noConfusion hh)
    | .ok _, .error _ => .isFalse (fun hh => Except.noConfusion hh)

/-- `kv.get`: first entry with the given key. -/
def assocGet {α : Type} (l : List (String × α)) (k : String) : Option α :=
  match l with
  | [] => none
  | p :: rest => if p.1 = k then some p.2 else assocGet rest k

/-- `kv.set`: insert-or-replace at the given key. -/
def assocSet {α : Type} (l : List (String × α)) (k : String) (v : α) :
    List (String × α) :=
  match l with
  | [] => [(k, v)]
  | p :: rest => if p.1 = k then (k, v) :: rest else p :: assocSet rest k v

/-- `kv.delete`: remove the given key. -/
def assocDel {α : Type} (l : List (String × α)) (k : String) :
    List (String × α) :=
  l.filter (fun p => p.1 != k)

/-- String-prefix test, stated on the character lists. -/
def strHasPfx (pfx s : String) : Bool :=
  pfx.data.isPrefixOf s.data

/-- `kv.list({ prefix })` within the `['kv', …]` keyspace: every stored
entry whose key extends the given string. -/
def kvScan (kvs : List (String × KVPair)) (pfx : String) : List KVPair :=
  (kvs.filter (fun p => strHasPfx pfx p.1)).map (fun p => p.2)

/-- JavaScript truthiness of a `string | undefined` value: defined and
non-empty. -/
def jsTruthy : Option String → Bool
  | some s => s != ""
  | none => false

/-- JavaScript `a || b` on `string | undefined` values, as used in
`c.req.query('acquire') || c.req.query('release')`. -/
def jsOr (a b : Option String) : Option String :=
  if jsTruthy a then a else b

/-- The guard `existing.value?.session && existing.value.session !== sessionId`
of the put handler. -/
def lockConflict (sessionId : Option String) (existing : Option KVPair) : Bool :=
  match existing with
  | none => false
  | some e => jsTruthy e.session && e.session != sessionId

/-- The guard `existing.value?.modifyIndex !== parseInt(cas)` of the put
handler; note that an absent entry fails the comparison for every `cas`,
including `cas = 0`. -/
def casFail (cas : Option Nat) (existing : Option KVPair) : Bool :=
  match cas with
  | none => false
  | some x =>
    match existing with
    | none => true
    | some e => e.modifyIndex != x

/-- The record the put handler stores (`const kvPair = { … }`). -/
def newPair (key value : String) (flags : Nat) (sid : Option String)
    (idx : Nat) : KVPair :=
  { createIndex := idx, modifyIndex := idx, lockIndex := 0, flags := flags,
    key := key, value := value, session := sid }

/-- Handler `app.put('/v1/session/create')`: stores a session with the
behavior lowercased and the parsed TTL, bumping `consulIndex`; it performs
no validation and never fails. `freshId` stands for `crypto.randomUUID()`
and `now` for `new Date()`. -/
def sessionCreate (name behavior : String) (ttl : Int) (freshId : String)
    (now : Nat) (st : ServerState) : String × ServerState :=
  let idx := st.consulIndex + 1
  let session : Session :=
    { id := freshId, name := name, behavior := behavior.toLower, ttl := ttl,
      createIndex := idx, lastRenewTime := now }
  (freshId, { st with consulIndex := idx,
                      sessions := assocSet st.sessions freshId session })

/-- Handler `app.put('/v1/session/renew/:sessionId')`: 404 when the session
is absent, otherwise refresh `lastRenewTime` and return the snapshot. -/
def sessionRenew (sessionId : String) (now : Nat) (st : ServerState) :
    Except HErr Session × ServerState :=
  match assocGet st.sessions sessionId with
  | none => (.error (.notFound "Session not found"), st)
  | some s =>
    let s' := { s with lastRenewTime := now }
    (.ok s', { st with sessions := assocSet st.sessions sessionId s' })

/-- Handler `app.put('/v1/session/destroy/:sessionId')`: 404 when absent,
otherwise delete the session and, only for `behavior === 'delete'`, delete
every KV entry whose `session` equals the destroyed id. -/
def sessionDestroy (sessionId : String) (st : ServerState) :
    Except HErr Bool × ServerState :=
  match assocGet st.sessions sessionId with
  | none => (.error (.notFound "Session not found"), st)
  | some s =>
    let st1 : ServerState := { st with sessions := assocDel st.sessions sessionId }
    if s.behavior = "delete" then
      (.ok true,
        { st1 with kvs := st1.kvs.filter (fun p => !(p.2.session == some sessionId)) })
    else
      (.ok true, st1)

/-- Handler `app.put('/v1/kv/*')`: session gate (400 on unknown session,
`false` on lock conflict), then CAS gate (`false` on mismatch), then store
`newPair` under a freshly bumped `consulIndex` and answer `true`. -/
def kvPut (key : String) (acquire release : Option String) (flags : Nat)
    (cas : Option Nat) (value : String) (st : ServerState) :
    Except HErr Bool × ServerState :=
  let sessionId := jsOr acquire release
  let existing := assocGet st.kvs key
  if jsTruthy sessionId && (assocGet st.sessions (sessionId.getD "")).isNone then
    (.error (.invalidArgument "Invalid session"), st)
  else if jsTruthy sessionId && lockConflict sessionId existing then
    (.ok false, st)
  else if casFail cas existing then
    (.ok false, st)
  else
    let idx := st.consulIndex + 1
    (.ok true, { st with consulIndex := idx,
                         kvs := assocSet st.kvs key (newPair key value flags sessionId idx) })

/-- Observable content of a GET response: HTTP status, the
`X-Consul-Index` header when the handler sets one, the JSON body, and the
time the handler sleeps (`setTimeout`) before responding. -/
structure GetResponse where
  status : Nat
  indexHeader : Option Nat
  body : List KVPair
  delayMs : Nat
deriving DecidableEq

/-- Handler `app.get('/v1/kv/*')`. Recursive reads scan by prefix and 404
on no matches; single reads 404 on a missing key; the blocking branch
(`index` equal to the entry's `modifyIndex` and not `stale`) sleeps the
whole `wait` and answers with the entry fetched *before* the sleep,
without setting `X-Consul-Index`. -/
def kvGet (key : String) (recurse : Bool) (index : Option Nat)
    (wait : Option Nat) (stale : Bool) (st : ServerState) : GetResponse :=
  if recurse then
    let results := kvScan st.kvs key
    if results.length = 0 then
      { status := 404, indexHeader := none, body := [], delayMs := 0 }
    else
      { status := 200, indexHeader := some st.consulIndex, body := results,
        delayMs := 0 }
  else
    match assocGet st.kvs key with
    | none => { status := 404, indexHeader := none, body := [], delayMs := 0 }
    | some v =>
      if index == some v.modifyIndex && !stale then
        { status := 200, indexHeader := none, body := [v],
          delayMs := wait.getD 0 }
      else
        { status := 200, indexHeader := some st.consulIndex, body := [v],
          delayMs := 0 }

/-- States reachable by the server satisfy this: every stored entry's
`modifyIndex` was drawn from the counter, hence is at most `consulIndex`. -/
def IndexWF (st : ServerState) : Prop :=
  ∀ p ∈ st.kvs, p.2.modifyIndex ≤ st.consulIndex

instance (st : ServerState) : Decidable (IndexWF st) := by
  unfold IndexWF
  infer_instance

/-- The freshly started server: `consulIndex = 1`, empty store. -/
def st0 : ServerState := { consulIndex := 1, sessions := [], kvs := [] }

/-- An unlocked entry at key `"k"`, written when the counter reached 2. -/
def pairK2 : KVPair :=
  { createIndex := 2, modifyIndex := 2, lockIndex := 0, flags := 0,
    key := "k", value := "v1", session := none }

/-- A state holding just `pairK2`. -/
def stOneKey : ServerState :=
  { consulIndex := 2, sessions := [], kvs := [("k", pairK2)] }

/-- A release-behavior session named `"s1"`. -/
def sessRel : Session :=
  { id := "s1", name := "n", behavior := "release", ttl := 30,
    createIndex := 2, lastRenewTime := 0 }

/-- An entry at `"k"` lock-held by session `"s1"`. -/
def pairHeld : KVPair :=
  { createIndex := 3, modifyIndex := 3, lockIndex := 0, flags := 0,
    key := "k", value := "v1", session := some "s1" }

/-- A state with session `"s1"` (release behavior) holding the lock on `"k"`. -/
def stHeld : ServerState :=
  { consulIndex := 3, sessions := [("s1", sessRel)], kvs := [("k", pairHeld)] }

/-- A session whose 1-second TTL elapsed long ago (`lastRenewTime = 0`). -/
def sessExp : Session :=
  { id := "s1", name := "n", behavior := "release", ttl := 1,
    createIndex := 2, lastRenewTime := 0 }

/-- A state whose only session is the long-expired `sessExp`. -/
def stExp : ServerState :=
  { consulIndex := 2, sessions := [("s1", sessExp)], kvs := [] }

theorem assocGet_assocSet_self {α : Type} (l : List (String × α)) (k : String)
    (v : α) : assocGet (assocSet l k v) k = some v := by
  induction l with
  | nil => simp [assocSet, assocGet]
  | cons p rest ih =>
    by_cases h : p.1 = k
    · simp [assocSet, assocGet, h]
    · simp [assocSet, assocGet, h, ih]

theorem assocGet_assocDel_self {α : Type} (l : List (String × α)) (k : String) :
    assocGet (assocDel l k) k = none := by
  induction l with
  | nil => simp [assocDel, assocGet]
  | cons p rest ih =>
    simp only [assocDel] at ih ⊢
    by_cases h : p.1 = k
    · simpa [List.filter_cons, h] using ih
    · simpa [List.filter_cons, assocGet, h] using ih

theorem mem_of_assocGet_eq_some {α : Type} {l : List (String × α)} {k : String}
    {v : α} (h : assocGet l k = some v) : (k, v) ∈ l := by
  induction l with
  | nil => simp [assocGet] at h
  | cons p rest ih =>
    obtain ⟨k', v'⟩ := p
    by_cases hk : k' = k
    · simp [assocGet, hk] at h
      subst hk
      subst h
      exact List.mem_cons_self _ _
    · simp [assocGet, hk] at h
      exact List.mem_cons_of_mem _ (ih h)

theorem kvPut_cases (key value : String) (acq rel : Option String)
    (flags : Nat) (cas : Option Nat) (st : ServerState) :
    kvPut key acq rel flags cas value st =
        (.error (.invalidArgument "Invalid session"), st) ∨
    kvPut key acq rel flags cas value st = (.ok false, st) ∨
    kvPut key acq rel flags cas value st =
      (.ok true,
        { st with
          consulIndex := st.consulIndex + 1,
          kvs := assocSet st.kvs key
            (newPair key value flags (jsOr acq rel) (st.consulIndex + 1)) }) := by
  simp only [kvPut]
  split_ifs <;> simp

theorem kvPut_ok_snd (key value : String) (acq rel : Option String)
    (flags : Nat) (cas : Option Nat) (st : ServerState)
    (hok : (kvPut key acq rel flags cas value st).1 = .ok true) :
    (kvPut key acq rel flags cas value st).2 =
      { st with
        consulIndex := st.consulIndex + 1,
        kvs := assocSet st.kvs key
          (newPair key value flags (jsOr acq rel) (st.consulIndex + 1)) } := by
  rcases kvPut_cases key value acq rel flags cas st with h | h | h <;>
    simp_all [h]

theorem kvPut_fail_snd (key value : String) (acq rel : Option String)
    (flags : Nat) (cas : Option Nat) (st : ServerState)
    (hng : (kvPut key acq rel flags cas value st).1 ≠ .ok true) :
    (kvPut key acq rel flags cas value st).2 = st := by
  rcases kvPut_cases key value acq rel flags cas st with h | h | h <;>
    simp_all [h]

theorem kvPut_noToken (key value : String) (flags : Nat) (cas : Option Nat)
    (st : ServerState) :
    kvPut key none none flags cas value st =
      if casFail cas (assocGet st.kvs key) then (.ok false, st)
      else (.ok true,
        { st with
          consulIndex := st.consulIndex + 1,
          kvs := assocSet st.kvs key
            (newPair key value flags none (st.consulIndex + 1)) }) := by
  simp [kvPut, jsOr, jsTruthy]

/-- C1 counterexample: on the fresh state the key `"a"` is absent, yet a put
carrying `casIndex = 0` returns `false` (and changes nothing), refuting the
claim that an absent key together with `X = 0` makes the CAS put succeed. -/
theorem c1_cas_put_cex :
    assocGet st0.kvs "a" = none ∧
    kvPut "a" none none 0 (some 0) "v" st0 = (.ok false, st0) := by decide

/-- C2 counterexample: key `"k"` is lock-held by `"s1"`; a put carrying the
matching unlock (release) token `"s1"` succeeds, but the stored entry's
`session` still equals `some "s1"` instead of being cleared. -/
theorem c2_release_not_cleared_cex :
    pairHeld.session = some "s1" ∧
    (kvPut "k" none (some "s1") 0 none "v2" stHeld).1 = .ok true ∧
    (assocGet (kvPut "k" none (some "s1") 0 none "v2" stHeld).2.kvs "k").map
        KVPair.session = some (some "s1") := by decide

/-- C3 counterexample: destroying the release-behavior session `"s1"`, which
holds the lock on `"k"`, removes the session but leaves the entry's
`session` field still equal to `some "s1"` — the lock holder is not
cleared. -/
theorem c3_release_keeps_lock_cex :
    sessRel.behavior = "release" ∧
    (sessionDestroy "s1" stHeld).1 = .ok true ∧
    assocGet (sessionDestroy "s1" stHeld).2.sessions "s1" = none ∧
    (assocGet (sessionDestroy "s1" stHeld).2.kvs "k").map KVPair.session =
      some (some "s1") := by decide

/-- C4 counterexample: the entry at `"k"` was first written with
`createIndex = 2`; a subsequent successful put rewrites it with
`createIndex = 3`, so `createIndex` does not keep its first-write value. -/
theorem c4_create_index_changes_cex :
    (assocGet stOneKey.kvs "k").map KVPair.createIndex = some 2 ∧
    (kvPut "k" none none 0 none "v2" stOneKey).1 = .ok true ∧
    (assocGet (kvPut "k" none none 0 none "v2" stOneKey).2.kvs "k").map
        KVPair.createIndex = some 3 := by decide

/-- C5 counterexample: session `"s1"` has `lastRenewTime + ttl = 1`, far
past at time 100, yet renewing at time 100 succeeds (no NotFound) and a put
acquiring with `"s1"` also succeeds (no InvalidArgument): expiry is never
checked. -/
theorem c5_expired_session_usable_cex :
    sessExp.lastRenewTime + sessExp.ttl.toNat < 100 ∧
    (sessionRenew "s1" 100 stExp).1 = .ok { sessExp with lastRenewTime := 100 } ∧
    (kvPut "k" (some "s1") none 0 none "v" stExp).1 = .ok true := by decide

/-- C8 counterexample: creating a session with a negative TTL (-5) is not
rejected with InvalidArgument; it succeeds and mutates the state, storing
the session with `ttl = -5`. -/
theorem c8_invalid_input_accepted_cex :
    (-5 : Int) < 0 ∧
    sessionCreate "n" "Delete" (-5) "id1" 7 st0 =
      ("id1",
        { consulIndex := 2,
          sessions := [("id1",
            { id := "id1", name := "n", behavior := "Delete".toLower,
              ttl := -5, createIndex := 2, lastRenewTime := 7 })],
          kvs := [] }) :=
  ⟨by decide, rfl⟩

/-- C9 counterexample: a blocking read (index equal to the entry's
`modifyIndex`, wait 50, not stale) on the existing key `"k"` answers with
status 200 but without any `X-Consul-Index` header: the blocking branch
never sets the current-index metadata. -/
theorem c9_blocking_no_header_cex :
    (assocGet stOneKey.kvs "k").map KVPair.modifyIndex = some 2 ∧
    (kvGet "k" false (some 2) (some 50) false stOneKey).status = 200 ∧
    (kvGet "k" false (some 2) (some 50) false stOneKey).indexHeader = none := by
  decide

/-- C10: a put carrying no lock-acquire token, no unlock token and no CAS
index always succeeds: it bumps the counter and stores the new value and
flags at the key — even when the key's existing entry (inside the
arbitrary state `st`) is lock-held by some session. -/
theorem c10_plain_put_always_succeeds (key value : String) (flags : Nat)
    (st : ServerState) :
    kvPut key none none flags none value st =
      (.ok true,
        { st with
          consulIndex := st.consulIndex + 1,
          kvs := assocSet st.kvs key
            (newPair key value flags none (st.consulIndex + 1)) }) ∧
    (assocGet (kvPut key none none flags none value st).2.kvs key).map
        KVPair.value = some value ∧
    (assocGet (kvPut key none none flags none value st).2.kvs key).map
        KVPair.flags = some flags := by
  have h : kvPut key none none flags none value st =
      (.ok true,
        { st with
          consulIndex := st.consulIndex + 1,
          kvs := assocSet st.kvs key
            (newPair key value flags none (st.consulIndex + 1)) }) := by
    rw [kvPut_noToken]
    simp [casFail]
  refine ⟨h, ?_, ?_⟩ <;> rw [h] <;> simp [assocGet_assocSet_self, newPair]

/-- C2 (amended): every successful put stores `jsOr acquire release` as the
entry's lock holder: the acquire token when truthy, otherwise the release
token, otherwise nothing. In particular a matched release token is kept as
the holder rather than cleared, and a token-free put clears any previous
holder rather than keeping it. -/
theorem c2_lock_holder_amended (key value : String) (acq rel : Option String)
    (flags : Nat) (cas : Option Nat) (st : ServerState)
    (hok : (kvPut key acq rel flags cas value st).1 = .ok true) :
    (assocGet (kvPut key acq rel flags cas value st).2.kvs key).map
        KVPair.session = some (jsOr acq rel) := by
  rw [kvPut_ok_snd key value acq rel flags cas st hok]
  simp [assocGet_assocSet_self, newPair]

/-- C4 (amended): on every successful put to an already-existing key the
entry's `modifyIndex` strictly increases, but its `createIndex` does not
keep the first-write value: both indices are rewritten to the freshly
bumped counter `consulIndex + 1`. -/
theorem c4_indices_amended (key value : String) (acq rel : Option String)
    (flags : Nat) (cas : Option Nat) (st : ServerState) (e : KVPair)
    (hwf : IndexWF st) (he : assocGet st.kvs key = some e)
    (hok : (kvPut key acq rel flags cas value st).1 = .ok true) :
    (assocGet (kvPut key acq rel flags cas value st).2.kvs key).map
        KVPair.createIndex = some (st.consulIndex + 1) ∧
    (assocGet (kvPut key acq rel flags cas value st).2.kvs key).map
        KVPair.modifyIndex = some (st.consulIndex + 1) ∧
    e.modifyIndex < st.consulIndex + 1 := by
  have hle : e.modifyIndex ≤ st.consulIndex :=
    hwf (key, e) (mem_of_assocGet_eq_some he)
  rw [kvPut_ok_snd key value acq rel flags cas st hok]
  refine ⟨?_, ?_, ?_⟩
  · simp [assocGet_assocSet_self, newPair]
  · simp [assocGet_assocSet_self, newPair]
  · omega

/-- C6: whenever a put answers `false` (lock conflict or CAS mismatch) or
is rejected with an error (unknown session), the successor state is
exactly the prior state: no entry, no session and not the counter is
touched. -/
theorem c6_failed_put_no_mutation (key value : String) (acq rel : Option String)
    (flags : Nat) (cas : Option Nat) (st : ServerState)
    (hng : (kvPut key acq rel flags cas value st).1 ≠ .ok true) :
    (kvPut key acq rel flags cas value st).2 = st :=
  kvPut_fail_snd key value acq rel flags cas st hng

/-- C7: a blocking read (blocking index equal to the entry's current
`modifyIndex`, not stale, wait duration `w`) responds only after sleeping
the full wait `w` — the deadline, never earlier — and its body is the
last-known entry fetched at request time. The handler registers no
write-triggered wake at all (the response is a function of the request-time
state alone), so the wake-then-re-read case never occurs. -/
theorem c7_blocking_read (key : String) (w : Nat) (st : ServerState)
    (e : KVPair) (he : assocGet st.kvs key = some e) :
    kvGet key false (some e.modifyIndex) (some w) false st =
      { status := 200, indexHeader := none, body := [e], delayMs := w } := by
  simp [kvGet, he]

/-- C8 (amended): session creation never fails on any input: the behavior
is stored lowercased without being checked against {delete, release}, the
TTL is stored even when negative, and the supplied fresh id is returned
with `createIndex = consulIndex + 1`. -/
theorem c8_create_always_succeeds (name behavior : String) (ttl : Int)
    (freshId : String) (now : Nat) (st : ServerState) :
    sessionCreate name behavior ttl freshId now st =
      (freshId,
        { st with
          consulIndex := st.consulIndex + 1,
          sessions := assocSet st.sessions freshId
            { id := freshId, name := name, behavior := behavior.toLower,
              ttl := ttl, createIndex := st.consulIndex + 1,
              lastRenewTime := now } }) := rfl

/-- C1 (amended): a put carrying `casIndex = X` and no session token
succeeds iff the key currently has an entry whose `modifyIndex` equals `X`
— an absent key is rejected even for `X = 0` — and on success the
entry's new `modifyIndex` differs from `X`. -/
theorem c1_cas_put_amended (st : ServerState) (key value : String)
    (x flags : Nat) (hwf : IndexWF st) :
    ((kvPut key none none flags (some x) value st).1 = .ok true ↔
      (assocGet st.kvs key).map KVPair.modifyIndex = some x) ∧
    ((kvPut key none none flags (some x) value st).1 = .ok true →
      (assocGet (kvPut key none none flags (some x) value st).2.kvs key).map
          KVPair.modifyIndex ≠ some x) := by
  have hput := kvPut_noToken key value flags (some x) st
  cases he : assocGet st.kvs key with
  | none =>
    rw [he] at hput
    simp [casFail] at hput
    rw [hput]
    simp
  | some e =>
    rw [he] at hput
    by_cases hm : e.modifyIndex = x
    · have hle : e.modifyIndex ≤ st.consulIndex :=
        hwf (key, e) (mem_of_assocGet_eq_some he)
      simp [casFail, hm] at hput
      rw [hput]
      constructor
      · simp [hm]
      · intro _
        simp [assocGet_assocSet_self, newPair]
        omega
    · simp [casFail, hm] at hput
      rw [hput]
      simp [hm]

theorem sessionDestroy_found (sid : String) (s : Session) (st : ServerState)
    (h : assocGet st.sessions sid = some s) :
    sessionDestroy sid st =
      (.ok true,
        { consulIndex := st.consulIndex,
          sessions := assocDel st.sessions sid,
          kvs := if s.behavior = "delete"
                 then st.kvs.filter (fun p => !(p.2.session == some sid))
                 else st.kvs }) := by
  simp only [sessionDestroy, h]
  split_ifs with hb <;> simp [hb]

/-- C3 (amended): destroying an existing session removes it; when its
behavior is `"delete"` every KV entry lock-held by it is removed while
every other entry survives; for any other behavior (including
`"release"`) the KV table is left completely unchanged — in particular
the entries' lock holders are not cleared. -/
theorem c3_destroy_cascade_amended (sid : String) (s : Session)
    (st : ServerState) (h : assocGet st.sessions sid = some s) :
    (sessionDestroy sid st).1 = .ok true ∧
    assocGet (sessionDestroy sid st).2.sessions sid = none ∧
    (s.behavior = "delete" →
      (∀ p ∈ (sessionDestroy sid st).2.kvs, p.2.session ≠ some sid) ∧
      (∀ p ∈ st.kvs, p.2.session ≠ some sid →
        p ∈ (sessionDestroy sid st).2.kvs)) ∧
    (s.behavior ≠ "delete" → (sessionDestroy sid st).2.kvs = st.kvs) := by
  rw [sessionDestroy_found sid s st h]
  refine ⟨rfl, ?_, ?_, ?_⟩
  · simp [assocGet_assocDel_self]
  · intro hb
    constructor
    · intro p hp
      simp only [hb, if_pos] at hp
      rcases List.mem_filter.mp hp with ⟨_, hcond⟩
      simpa using hcond
    · intro p hp hps
      simp only [hb, if_pos]
      exact List.mem_filter.mpr ⟨hp, by simpa using hps⟩
  · intro hb
    simp [hb]

theorem kvPut_acquire_error_iff (key value sid : String) (flags : Nat)
    (cas : Option Nat) (st : ServerState) (hsid : sid ≠ "") :
    ((kvPut key (some sid) none flags cas value st).1 =
        .error (.invalidArgument "Invalid session")) ↔
      assocGet st.sessions sid = none := by
  cases hs : assocGet st.sessions sid with
  | none => simp [kvPut, jsOr, jsTruthy, hsid, hs]
  | some s =>
    simp only [kvPut, jsOr, jsTruthy, hs]
    split_ifs <;> simp_all

/-- C5 (amended): the expiry deadline is never consulted. Renewing fails
with NotFound exactly when the session id is absent from the registry, so
a session whose `lastRenewTime + ttl` deadline has long passed (but which
was never explicitly destroyed) is still renewed; likewise a put acquiring
with a non-empty session id is rejected with InvalidArgument exactly when
that id is absent, so an expired-but-present session still acquires
locks. -/
theorem c5_no_expiry_amended (sid : String) (now : Nat) (st : ServerState) :
    ((sessionRenew sid now st).1 = .error (.notFound "Session not found") ↔
      assocGet st.sessions sid = none) ∧
    (∀ key value flags, sid ≠ "" →
      ((kvPut key (some sid) none flags none value st).1 =
          .error (.invalidArgument "Invalid session") ↔
        assocGet st.sessions sid = none)) := by
  constructor
  · cases hs : assocGet st.sessions sid <;> simp [sessionRenew, hs]
  · intro key value flags hsid
    exact kvPut_acquire_error_iff key value sid flags none st hsid

/-- C9 (amended): the `X-Consul-Index` current-index metadata accompanies a
single-key read exactly when the blocking branch is not taken, and
accompanies a recursive read when the prefix scan is non-empty; the
blocking branch's response (and the not-found responses) carry no
current-index metadata at all. -/
theorem c9_index_header_amended (key : String) (st : ServerState) :
    (∀ e, assocGet st.kvs key = some e →
      ∀ index wait stale,
        (kvGet key false index wait stale st).indexHeader =
          if index == some e.modifyIndex && !stale then none
          else some st.consulIndex) ∧
    (∀ index wait stale, kvScan st.kvs key ≠ [] →
      (kvGet key true index wait stale st).indexHeader =
        some st.consulIndex) := by
  constructor
  · intro e he index wait stale
    simp only [kvGet, Bool.false_eq_true, if_false, he]
    split_ifs <;> rfl
  · intro index wait stale hne
    simp [kvGet, List.length_eq_zero, hne]

/-- Witness for C1 at the concrete state `stOneKey`: the CAS put with
`X = 2` against the entry whose `modifyIndex` is 2. -/
theorem c1_cas_put_witness :
    ((kvPut "k" none none 0 (some 2) "v" stOneKey).1 = .ok true ↔
      (assocGet stOneKey.kvs "k").map KVPair.modifyIndex = some 2) ∧
    ((kvPut "k" none none 0 (some 2) "v" stOneKey).1 = .ok true →
      (assocGet (kvPut "k" none none 0 (some 2) "v" stOneKey).2.kvs "k").map
          KVPair.modifyIndex ≠ some 2) :=
  c1_cas_put_amended stOneKey "k" "v" 2 0 (by decide)

/-- Witness for C2 at `stHeld`: an acquire put by the holding session. -/
theorem c2_lock_holder_witness :
    (assocGet (kvPut "k" (some "s1") none 0 none "v2" stHeld).2.kvs "k").map
        KVPair.session = some (jsOr (some "s1") none) :=
  c2_lock_holder_amended "k" "v2" (some "s1") none 0 none stHeld (by decide)

/-- Witness for C3 at `stHeld`: destroying the release-behavior session. -/
theorem c3_destroy_cascade_witness :
    (sessionDestroy "s1" stHeld).1 = .ok true ∧
    assocGet (sessionDestroy "s1" stHeld).2.sessions "s1" = none ∧
    (sessRel.behavior = "delete" →
      (∀ p ∈ (sessionDestroy "s1" stHeld).2.kvs, p.2.session ≠ some "s1") ∧
      (∀ p ∈ stHeld.kvs, p.2.session ≠ some "s1" →
        p ∈ (sessionDestroy "s1" stHeld).2.kvs)) ∧
    (sessRel.behavior ≠ "delete" →
      (sessionDestroy "s1" stHeld).2.kvs = stHeld.kvs) :=
  c3_destroy_cascade_amended "s1" sessRel stHeld (by decide)

/-- Witness for C4 at `stOneKey`: a second put over the existing entry. -/
theorem c4_indices_witness :
    (assocGet (kvPut "k" none none 0 none "v2" stOneKey).2.kvs "k").map
        KVPair.createIndex = some (stOneKey.consulIndex + 1) ∧
    (assocGet (kvPut "k" none none 0 none "v2" stOneKey).2.kvs "k").map
        KVPair.modifyIndex = some (stOneKey.consulIndex + 1) ∧
    pairK2.modifyIndex < stOneKey.consulIndex + 1 :=
  c4_indices_amended "k" "v2" none none 0 none stOneKey pairK2
    (by decide) (by decide) (by decide)

/-- Witness for C5 on the empty state: renewing and acquiring with an
unknown id both take the absent branch. -/
theorem c5_no_expiry_witness :
    ((sessionRenew "sX" 5 st0).1 = .error (.notFound "Session not found") ↔
      assocGet st0.sessions "sX" = none) ∧
    ((kvPut "k" (some "sX") none 0 none "v" st0).1 =
        .error (.invalidArgument "Invalid session") ↔
      assocGet st0.sessions "sX" = none) :=
  ⟨(c5_no_expiry_amended "sX" 5 st0).1,
   (c5_no_expiry_amended "sX" 5 st0).2 "k" "v" 0 (by decide)⟩

/-- Witness for C6: a CAS-mismatch put against the fresh state leaves the
state untouched. -/
theorem c6_failed_put_no_mutation_witness :
    (kvPut "a" none none 0 (some 5) "v" st0).2 = st0 :=
  c6_failed_put_no_mutation "a" "v" none none 0 (some 5) st0 (by decide)

/-- Witness for C7 at `stOneKey`: a blocking read with wait 50. -/
theorem c7_blocking_read_witness :
    kvGet "k" false (some pairK2.modifyIndex) (some 50) false stOneKey =
      { status := 200, indexHeader := none, body := [pairK2], delayMs := 50 } :=
  c7_blocking_read "k" 50 stOneKey pairK2 (by decide)

/-- Witness for C9 at `stOneKey`: the blocking single-key read and a
non-empty recursive read. -/
theorem c9_index_header_witness :
    ((kvGet "k" false (some 2) (some 50) false stOneKey).indexHeader =
      if (some 2 : Option Nat) == some pairK2.modifyIndex && !false then none
      else some stOneKey.consulIndex) ∧
    (kvGet "k" true none none false stOneKey).indexHeader =
      some stOneKey.consulIndex :=
  ⟨(c9_index_header_amended "k" stOneKey).1 pairK2 (by decide)
      (some 2) (some 50) false,
   (c9_index_header_amended "k" stOneKey).2 none none false (by decide)⟩

end ConsulKV
